import Mathlib

/-!
Verification development for the `inference` repository (Roboflow transformer
model loading and Qwen2.5-VL inference).

Source files embedded:
  - `src/inference/models/transformers/transformers.py`
    (`TransformerModel`, `LoRATransformerModel`)
  - `src/inference/models/qwen25vl/qwen25vl.py`
    (`_patch_preprocessor_config`, `Qwen25VL`, `LoRAQwen25VL`)

Strings are modelled as `List Char`; Python `str.split(sep)` and
`str.replace(old, "")` (both call sites use a fixed non-empty literal
separator/pattern and an empty replacement) are modelled by fuel-indexed
structural recursions `splitSepF` / `replaceAllF` whose fuel is the length of
the scanned list, so they reduce in the kernel.  JSON documents produced by
`json.load` are modelled by the inductive `JVal`; a JSON object is its
insertion-ordered field list (Python dicts preserve insertion order and
`json.load`/`json.dump` round-trip an object exactly, so object equality is
byte equality of the dumped file up to the fixed `json.dump` formatting).
-/

namespace Inference

/-- Python exception kinds raised (directly or indirectly) by the embedded
code.  `modelArtefactError` is `inference.core.exceptions.ModelArtefactError`. -/
inductive PyErr where
  | modelArtefactError (msg : String)
  | keyError (key : String)
  | typeError
  | valueError (msg : String)
  | fileNotFoundError
  | runtimeError (msg : String)
  | attributeError
  | indexError
deriving DecidableEq

/-! ### Python string scanning: `str.split` and `str.replace(old, "")` -/

/-- One left-to-right scan of Python `s.split(sep)` for a non-empty `sep`,
with explicit fuel.  `splitSepF pat l.length l` computes the split of `l`:
at each position, if `pat` starts here, cut a segment and jump past `pat`,
otherwise keep the character.  Python guarantees the result list is non-empty
and, for fuel at least the length of the input, so does this model. -/
def splitSepF (pat : List Char) : Nat → List Char → List (List Char)
  | _, [] => [[]]
  | 0, c :: cs => [c :: cs]
  | fuel + 1, c :: cs =>
    if pat.isPrefixOf (c :: cs) then
      [] :: splitSepF pat fuel (List.drop pat.length (c :: cs))
    else
      match splitSepF pat fuel cs with
      | [] => [[c]]
      | r :: rs => (c :: r) :: rs

/-- Python `s.split(sep)` for non-empty `sep`, on character lists. -/
def pySplit (sep s : List Char) : List (List Char) := splitSepF sep s.length s

/-- One left-to-right scan of Python `s.replace(old, "")` for a non-empty
`old`, with explicit fuel: occurrences found while scanning are deleted and
the scan resumes after the deleted occurrence. -/
def replaceAllF (pat : List Char) : Nat → List Char → List Char
  | _, [] => []
  | 0, c :: cs => c :: cs
  | fuel + 1, c :: cs =>
    if pat.isPrefixOf (c :: cs) then
      replaceAllF pat fuel (List.drop pat.length (c :: cs))
    else
      c :: replaceAllF pat fuel cs

/-- Python `s.replace(old, "")` for non-empty `old`, on character lists. -/
def pyReplaceEmpty (old s : List Char) : List Char := replaceAllF old s.length s

/-- Does `pat` occur (as a contiguous run) in `l`?  Matches the scan order of
`splitSepF` / `replaceAllF`. -/
def hasOcc (pat : List Char) : List Char → Bool
  | [] => false
  | c :: cs => pat.isPrefixOf (c :: cs) || hasOcc pat cs

/-- A pattern has no non-trivial self-overlap: no proper suffix shift of the
pattern matches its own front.  For such patterns an occurrence of the pattern
in `a ++ pat ++ b` cannot start strictly inside an occurrence-free `a`. -/
def noSelfOverlap (pat : List Char) : Prop :=
  ∀ k < pat.length, 0 < k → pat.drop k ≠ pat.take (pat.length - k)

/-- Model of `weights_url.split("?")[0].split("/")[-1]` from
`TransformerModel.download_model_artifacts_from_roboflow_api`.  Python `split`
always returns a non-empty list, so indexing with `[0]` / `[-1]` cannot fail;
the model uses `headD` / `getLastD` accordingly. -/
def filenameOfUrl (url : List Char) : List Char :=
  ((pySplit ['/'] ((pySplit ['?'] url).headD [])).getLastD [])

/-- The cache file name derived from a signed url (`filename` in the download
loop), as a string. -/
def cacheFileName (url : String) : String := String.mk (filenameOfUrl url.toList)

/-! ### JSON documents (`json.load` output) -/

/-- JSON values as produced by Python `json.load`.  An object is its
insertion-ordered association list (`json.load` keeps one entry per key). -/
inductive JVal where
  | jstr : String → JVal
  | jnum : Int → JVal
  | jbool : Bool → JVal
  | jnull : JVal
  | jarr : List JVal → JVal
  | jobj : List (String × JVal) → JVal

/-- Python `v == s` for a JSON value `v` and a string literal `s`: true
exactly when `v` is an equal string. -/
def eqStrVal (v : JVal) (s : String) : Bool :=
  match v with
  | .jstr t => t == s
  | _ => false

/-! ### Configuration Patcher -/

/-- The fixed denylist `keys_to_remove = ["eva_config", "lora_bias",
"exclude_modules"]` from `Qwen25VL.initialize_model` and
`LoRAQwen25VL.initialize_model`. -/
def adapterDenylist : List String := ["eva_config", "lora_bias", "exclude_modules"]

/-- The `config.pop(key, None)` loop over `keys_to_remove`: every entry whose
key is denylisted is removed; the remaining entries keep their order. The
patched object is then written back with `json.dump(config, file, indent=2)`,
a deterministic pure function of the object, so equal patched objects yield
byte-identical file contents. -/
def patch_adapter_config (config : List (String × JVal)) : List (String × JVal) :=
  config.filter (fun kv => !(adapterDenylist.contains kv.1))

/-- The key checked by `_patch_preprocessor_config`. -/
def preprocessorTargetKey : String := "image_processor_type"

/-- The value `_patch_preprocessor_config` requires for the target key. -/
def preprocessorCorrectValue : String := "Qwen2VLImageProcessor"

/-- The in-place update `data[target_key] = correct_value` on a JSON object:
the entry at the target key is rewritten, all other entries (and the order)
are untouched. -/
def setTargetField (data : List (String × JVal)) : List (String × JVal) :=
  data.map (fun kv =>
    if kv.1 = preprocessorTargetKey then (kv.1, JVal.jstr preprocessorCorrectValue) else kv)

/-- Core of `_patch_preprocessor_config` acting on the parsed JSON object of
`preprocessor_config.json`.  Result: `.ok (some d)` means the file was
rewritten with object `d`; `.ok none` means the file was left untouched;
`.error` models the raised Python exception. -/
def patchPreprocessorObj (data : List (String × JVal)) :
    Except PyErr (Option (List (String × JVal))) :=
  match List.lookup preprocessorTargetKey data with
  | some v =>
    if eqStrVal v preprocessorCorrectValue then
      Except.ok none
    else
      Except.ok (some (setTargetField data))
  | none =>
    Except.error (PyErr.valueError "image_processor_type not found in preprocessor_config.json")

/-- Full `_patch_preprocessor_config`: a missing file (`none`) raises
`FileNotFoundError` before the JSON is read. -/
def patch_preprocessor_config (file : Option (List (String × JVal))) :
    Except PyErr (Option (List (String × JVal))) :=
  match file with
  | none => Except.error PyErr.fileNotFoundError
  | some data => patchPreprocessorObj data

/-! ### Dtype resolution -/

/-- Torch dtype objects (`torch.float16`, `torch.bfloat16`, ...).  The
constructor `named` covers every further dtype attribute of torch (`uint8`,
`complex64`, the `float8` variants, ...) without fixing a closed list. -/
inductive TorchDtype where
  | float16
  | float32
  | float64
  | bfloat16
  | named (s : String)
deriving DecidableEq

/-- A value reachable as `getattr(torch, name)`: either a dtype object, or
any other attribute of the torch module (a submodule such as `torch.nn`, a
function such as `torch.abs`, a class, ...). -/
inductive TorchVal where
  | dtype (d : TorchDtype)
  | attr (name : String)
deriving DecidableEq

/-- Dtype resolution as performed across `__init__` (`self.dtype = dtype`,
then `if self.dtype is None: self.dtype = self.default_dtype`) and
`initialize_model` (`if revision is not None: try: self.dtype =
getattr(torch, revision) except AttributeError: pass`), identical in
`LoRATransformerModel.initialize_model`, `Qwen25VL.initialize_model` and
`LoRAQwen25VL.initialize_model`.  The torch module is an external
collaborator, so its attribute table is the parameter `torchNS`:
`torchNS name = some v` means `getattr(torch, name)` returns the attribute
`v` (dtype or not), and `torchNS name = none` means `getattr` raises
`AttributeError`, which the code swallows with `pass`.  The `getattr` call
in the source is unchecked: whatever attribute it returns is stored into
`self.dtype`, even when it is not a dtype. -/
def resolveDtype (torchNS : String → Option TorchVal) (classDefault : TorchDtype)
    (callerDtype : Option TorchDtype) (revision : Option String) : TorchVal :=
  let d := TorchVal.dtype (callerDtype.getD classDefault)
  match revision with
  | none => d
  | some r =>
    match torchNS r with
    | some v => v
    | none => d

/-- A fragment of the real torch namespace, for concrete runs:
`torch.bfloat16`, `torch.float16` and `torch.uint8` are dtype objects,
`torch.nn` is a submodule — an attribute of torch that is not a dtype — and
a string such as `"main"` (a typical adapter revision) names no torch
attribute, so `getattr` raises `AttributeError` on it. -/
def torchNSfrag : String → Option TorchVal := fun s =>
  if s = "bfloat16" then some (TorchVal.dtype TorchDtype.bfloat16)
  else if s = "float16" then some (TorchVal.dtype TorchDtype.float16)
  else if s = "uint8" then some (TorchVal.dtype (TorchDtype.named "uint8"))
  else if s = "nn" then some (TorchVal.attr "nn")
  else none

/-! ### Prompt splitting and output sanitization (`predict`) -/

/-- The literal delimiter `"<system_prompt>"` used by `predict`. -/
def system_prompt_delimiter : List Char := "<system_prompt>".toList

/-- The class attribute `default_system_prompt` shared by `Qwen25VL` and
`LoRAQwen25VL`. -/
def qwen_default_system_prompt : String :=
  "You are a Qwen2.5-VL model that can answer questions about any image."

/-- The prompt-splitting block shared verbatim by `Qwen25VL.predict` and the
non-`None` branch of `LoRAQwen25VL.predict`:
`split_prompt = prompt.split("<system_prompt>")`, then user prompt
`split_prompt[0]` and system prompt `split_prompt[1]` (or the default when
the split has a single element).  `none` models a Python `IndexError`, which
cannot occur because `split` returns a non-empty list. -/
def splitPromptQwen (p : List Char) : Option (List Char × List Char) :=
  let sp := pySplit system_prompt_delimiter p
  if sp.length = 1 then
    (sp[0]?).map (fun u => (u, qwen_default_system_prompt.toList))
  else
    match sp[0]?, sp[1]? with
    | some u, some s => some (u, s)
    | _, _ => none

/-- Entry of `Qwen25VL.predict` applied to the optional `prompt` argument:
`prompt.split(...)` is called without a `None` guard, so `prompt=None` raises
`AttributeError`. -/
def qwen25vl_prompt_step : Option (List Char) → Except PyErr (List Char × List Char)
  | none => Except.error PyErr.attributeError
  | some p =>
    match splitPromptQwen p with
    | some r => Except.ok r
    | none => Except.error PyErr.indexError

/-- Entry of `LoRAQwen25VL.predict` applied to the optional `prompt`
argument: `prompt=None` is guarded and yields the empty user prompt with the
default system prompt; otherwise the same split as `Qwen25VL.predict`. -/
def lora_qwen25vl_prompt_step : Option (List Char) → Except PyErr (List Char × List Char)
  | none => Except.ok ([], qwen_default_system_prompt.toList)
  | some p =>
    match splitPromptQwen p with
    | some r => Except.ok r
    | none => Except.error PyErr.indexError

/-- The literal `"assistant\n"` removed from decoded output. -/
def assistantArtifact : List Char := "assistant\n".toList

/-- The literal `" addCriterion\n"` removed from decoded output. -/
def addCriterionArtifact : List Char := " addCriterion\n".toList

/-- The post-processing of both `predict` methods:
`decoded.replace("assistant\n", "")` then
`decoded.replace(" addCriterion\n", "")`. -/
def sanitizeDecoded (s : List Char) : List Char :=
  pyReplaceEmpty addCriterionArtifact (pyReplaceEmpty assistantArtifact s)

/-! ### Generation slicing (`predict`) -/

/-- Class attribute `generation_includes_input` of `Qwen25VL`. -/
def qwen25vl_generation_includes_input : Bool := true

/-- Class attribute `generation_includes_input` of `LoRAQwen25VL`. -/
def lora_qwen25vl_generation_includes_input : Bool := true

/-- The slicing step of `Qwen25VL.predict`:
`if not self.generation_includes_input: generation = generation[:, input_len:]`.
A generated batch is a list of token rows; slicing drops the first
`input_len` tokens of every row. -/
def qwen25vl_slice_generation (input_len : Nat) (generation : List (List Nat)) :
    List (List Nat) :=
  if !qwen25vl_generation_includes_input then
    generation.map (List.drop input_len)
  else generation

/-- The slicing step of `LoRAQwen25VL.predict`:
`if self.generation_includes_input: generation = generation[:, input_len:]`. -/
def lora_qwen25vl_slice_generation (input_len : Nat) (generation : List (List Nat)) :
    List (List Nat) :=
  if lora_qwen25vl_generation_includes_input then
    generation.map (List.drop input_len)
  else generation

/-! ### Construction (`__init__`) -/

/-- Observable lifecycle calls made by `__init__` after the token check. -/
inductive InitEvent where
  | cache_model_artefacts
  | initialize_model
deriving DecidableEq

/-- Message of the `RuntimeError` raised when a required token is absent. -/
def missingTokenMsg : String :=
  "Must set environment variable HUGGINGFACE_TOKEN to load LoRA (or pass huggingface_token to this __init__)"

/-- `TransformerModel.__init__` reduced to its observable lifecycle: the
parameter `huggingface_token` (caller argument, defaulting to the
`HUGGINGFACE_TOKEN` environment value) is checked when `needs_hf_token` is
set, and only on success are `cache_model_artefacts()` and
`initialize_model()` invoked.  The result pairs the calls actually made with
the exception raised, if any; a raised error propagates to the caller
unhandled (there is no retry construct in the source). -/
def transformer_init (needs_hf_token : Bool) (huggingface_token : Option String) :
    List InitEvent × Option PyErr :=
  if needs_hf_token ∧ huggingface_token = none then
    ([], some (PyErr.runtimeError missingTokenMsg))
  else
    ([InitEvent.cache_model_artefacts, InitEvent.initialize_model], none)

/-- `Qwen25VL.__init__` reduced to its observable lifecycle.
`super().__init__(model_id, *args, **kwargs)` runs first and does not forward
the `huggingface_token` argument (it is captured by the subclass signature),
so the superclass sees its own default, the `HUGGINGFACE_TOKEN` environment
value (`env_token`).  Afterwards the subclass re-checks its own argument
(`arg_token`) and, on success, calls `cache_model_artefacts()` and
`initialize_model()` again. -/
def qwen25vl_init (needs_hf_token : Bool) (env_token arg_token : Option String) :
    List InitEvent × Option PyErr :=
  match transformer_init needs_hf_token env_token with
  | (evs, some e) => (evs, some e)
  | (evs, none) =>
    if needs_hf_token ∧ arg_token = none then
      (evs, some (PyErr.runtimeError missingTokenMsg))
    else
      (evs ++ [InitEvent.cache_model_artefacts, InitEvent.initialize_model], none)

/-! ### Artifact download (`download_model_artifacts_from_roboflow_api`) -/

/-- The per-instance configuration that selects the manifest shape. -/
structure TransformerCfg where
  load_weights_as_transformers : Bool
  version_id : Option String

/-- External collaborators of the download routine.  `apiResponse k` is the
JSON object returned by the `k`-th metadata-endpoint call of the run (all
calls of one run hit the endpoint selected by the configuration);
`duration u` is the wall-clock seconds measured by the `perf_counter` pair
around the processing of the file at signed url `u`; `tarOk f` tells whether
`tar -xzf` succeeds on downloaded archive `f`. -/
structure RoboflowEnv where
  apiResponse : Nat → List (String × JVal)
  duration : String → Nat
  tarOk : String → Bool

/-- Observable outcome of a download run: the number of manifest
re-resolution calls made after the initial one, and the file names passed to
`save_bytes_in_cache`, in order. -/
structure DlState where
  refreshes : Nat
  written : List String
deriving DecidableEq

/-- Initial download state. -/
def emptyDlState : DlState := ⟨0, []⟩

/-- Message of the `ModelArtefactError` raised for a missing weights key. -/
def missingWeightsMsg : String :=
  "`weights` key not available in Roboflow API response while downloading model weights."

/-- Message of the `ModelArtefactError` raised for a missing `modelFiles` key. -/
def missingModelFilesMsg : String :=
  "`modelFiles` key not available in Roboflow API response while downloading model weights."

/-- Message of the `ModelArtefactError` raised for a missing `transformers` key. -/
def missingTransformersMsg : String :=
  "`transformers` key not available in Roboflow API response while downloading model weights."

/-- The initial manifest resolution (first half of
`download_model_artifacts_from_roboflow_api`): per manifest shape, the
response is checked for the expected weights key and the weights mapping is
extracted.  A string value where the code writes `key in value` is Python
substring containment; indexing a string with a string key then raises
`TypeError`. -/
def resolveWeights (cfg : TransformerCfg) (resp : List (String × JVal)) :
    Except PyErr JVal :=
  if cfg.load_weights_as_transformers then
    match List.lookup "weights" resp with
    | none => Except.error (PyErr.modelArtefactError missingWeightsMsg)
    | some w => Except.ok w
  else if cfg.version_id.isSome then
    match List.lookup "ort" resp with
    | none => Except.error (PyErr.keyError "ort")
    | some (JVal.jobj ort) =>
      match List.lookup "weights" ort with
      | none => Except.error (PyErr.modelArtefactError missingWeightsMsg)
      | some w => Except.ok w
    | some (JVal.jstr s) =>
      if hasOcc "weights".toList s.toList then Except.error PyErr.typeError
      else Except.error (PyErr.modelArtefactError missingWeightsMsg)
    | some _ => Except.error PyErr.typeError
  else
    match List.lookup "modelFiles" resp with
    | none => Except.error (PyErr.modelArtefactError missingModelFilesMsg)
    | some (JVal.jobj mf) =>
      match List.lookup "transformers" mf with
      | none => Except.error (PyErr.modelArtefactError missingTransformersMsg)
      | some w => Except.ok w
    | some (JVal.jstr s) =>
      if hasOcc "transformers".toList s.toList then Except.error PyErr.typeError
      else Except.error (PyErr.modelArtefactError missingTransformersMsg)
    | some _ => Except.error PyErr.typeError

/-- The manifest re-resolution performed inside the slow-download branch:
unlike the initial resolution it indexes the response without key checks, so
a missing key raises `KeyError` (and a non-object raises `TypeError`). -/
def refreshWeights (env : RoboflowEnv) (cfg : TransformerCfg) (callIdx : Nat) :
    Except PyErr JVal :=
  let resp := env.apiResponse callIdx
  if cfg.load_weights_as_transformers then
    match List.lookup "weights" resp with
    | none => Except.error (PyErr.keyError "weights")
    | some w => Except.ok w
  else if cfg.version_id.isSome then
    match List.lookup "ort" resp with
    | none => Except.error (PyErr.keyError "ort")
    | some (JVal.jobj ort) =>
      match List.lookup "weights" ort with
      | none => Except.error (PyErr.keyError "weights")
      | some w => Except.ok w
    | some _ => Except.error PyErr.typeError
  else
    match List.lookup "modelFiles" resp with
    | none => Except.error (PyErr.keyError "modelFiles")
    | some (JVal.jobj mf) =>
      match List.lookup "transformers" mf with
      | none => Except.error (PyErr.keyError "transformers")
      | some w => Except.ok w
    | some _ => Except.error PyErr.typeError

/-- The download loop: `files` is the key list computed once from the initial
manifest (`files_to_download = list(weights.keys())`); `weights` is the
current manifest binding, replaced when a slow file triggers a refresh;
`nextCall` indexes the next metadata-endpoint call.  Per file: look up the
signed url in the current manifest, derive the cache file name, skip `.npz`
side-channel files entirely (the `continue` also skips the timing check),
persist the downloaded bytes, extract `tar.gz` archives (a failed extraction
is a fatal `ModelArtefactError`), and re-resolve the manifest when the
measured duration exceeds 120 seconds. -/
def downloadLoop (env : RoboflowEnv) (cfg : TransformerCfg) :
    List String → JVal → Nat → DlState → DlState × Option PyErr
  | [], _, _, st => (st, none)
  | f :: rest, weights, nextCall, st =>
    match weights with
    | JVal.jobj wf =>
      match List.lookup f wf with
      | none => (st, some (PyErr.keyError f))
      | some (JVal.jstr url) =>
        if (".npz".toList).isSuffixOf (filenameOfUrl url.toList) then
          downloadLoop env cfg rest weights nextCall st
        else if ("tar.gz".toList).isSuffixOf (filenameOfUrl url.toList) ∧
            env.tarOk (cacheFileName url) = false then
          (⟨st.refreshes, st.written ++ [cacheFileName url]⟩,
           some (PyErr.modelArtefactError
             ("Failed to extract model archive " ++ cacheFileName url)))
        else if 120 < env.duration url then
          match refreshWeights env cfg nextCall with
          | Except.error e =>
            (⟨st.refreshes, st.written ++ [cacheFileName url]⟩, some e)
          | Except.ok w =>
            downloadLoop env cfg rest w (nextCall + 1)
              ⟨st.refreshes + 1, st.written ++ [cacheFileName url]⟩
        else
          downloadLoop env cfg rest weights nextCall
            ⟨st.refreshes, st.written ++ [cacheFileName url]⟩
      | some _ => (st, some PyErr.attributeError)
    | _ => (st, some PyErr.typeError)

/-- `TransformerModel.download_model_artifacts_from_roboflow_api`: resolve
the initial manifest (call index 0), compute the file list once, then run the
download loop.  The result records which file names were persisted in the
cache directory and how many manifest re-resolutions happened. -/
def download_model_artifacts_from_roboflow_api (env : RoboflowEnv)
    (cfg : TransformerCfg) : DlState × Option PyErr :=
  match resolveWeights cfg (env.apiResponse 0) with
  | Except.error e => (emptyDlState, some e)
  | Except.ok (JVal.jobj wf) =>
    downloadLoop env cfg (wf.map Prod.fst) (JVal.jobj wf) 1 emptyDlState
  | Except.ok _ => (emptyDlState, some PyErr.attributeError)

/-- A file that the loop handles without refresh or error against manifest
`w`: its signed url is present, the transfer stays within the 120 second
budget, it is not a skipped `.npz` file, and any archive extraction
succeeds. -/
def fileFast (env : RoboflowEnv) (w : List (String × JVal)) (f : String) : Prop :=
  ∃ u, List.lookup f w = some (JVal.jstr u) ∧
    env.duration u ≤ 120 ∧
    (".npz".toList).isSuffixOf (filenameOfUrl u.toList) = false ∧
    (("tar.gz".toList).isSuffixOf (filenameOfUrl u.toList) = true →
      env.tarOk (cacheFileName u) = true)

/-- The cache file name a manifest assigns to a manifest key. -/
def fnameFromManifest (w : List (String × JVal)) (f : String) : String :=
  match List.lookup f w with
  | some (JVal.jstr u) => cacheFileName u
  | _ => ""

/-! ### Supporting lemmas: left-to-right scanning -/

theorem ipo_exists (p w : List Char) : p.isPrefixOf w = true ↔ ∃ t, w = p ++ t := by
  induction p generalizing w with
  | nil => simp [List.isPrefixOf]
  | cons a as ih =>
    cases w with
    | nil => simp [List.isPrefixOf]
    | cons b bs =>
      simp only [List.isPrefixOf, Bool.and_eq_true, beq_iff_eq, ih, List.cons_append,
        List.cons.injEq]
      constructor
      · rintro ⟨rfl, t, rfl⟩
        exact ⟨t, rfl, rfl⟩
      · rintro ⟨t, rfl, rfl⟩
        exact ⟨rfl, t, rfl⟩

theorem ipo_append_self (p t : List Char) : p.isPrefixOf (p ++ t) = true :=
  (ipo_exists p _).mpr ⟨t, rfl⟩

theorem hasOcc_false_ipo (pat : List Char) (hpne : pat ≠ []) (l : List Char)
    (h : hasOcc pat l = false) : pat.isPrefixOf l = false := by
  cases l with
  | nil =>
    cases pat with
    | nil => exact absurd rfl hpne
    | cons p ps => rfl
  | cons c cs =>
    simp only [hasOcc, Bool.or_eq_false_iff] at h
    exact h.1

theorem hasOcc_false_tail (pat : List Char) (c : Char) (cs : List Char)
    (h : hasOcc pat (c :: cs) = false) : hasOcc pat cs = false := by
  simp only [hasOcc, Bool.or_eq_false_iff] at h
  exact h.2

theorem ipo_boundary_false (pat : List Char) (hpne : pat ≠ [])
    (hno : noSelfOverlap pat) (a b : List Char) (hane : a ≠ [])
    (ha : hasOcc pat a = false) : pat.isPrefixOf (a ++ pat ++ b) = false := by
  cases hb : pat.isPrefixOf (a ++ pat ++ b) with
  | false => rfl
  | true =>
    exfalso
    obtain ⟨t, ht⟩ := (ipo_exists pat _).mp hb
    rw [List.append_assoc] at ht
    by_cases hlen : pat.length ≤ a.length
    · -- the occurrence would lie inside a
      have htake := congrArg (List.take pat.length) ht
      rw [List.take_append_eq_append_take, Nat.sub_eq_zero_of_le hlen,
        List.take_zero, List.append_nil, List.take_left] at htake
      have hpa : pat.isPrefixOf a = true := by
        refine (ipo_exists pat a).mpr ⟨a.drop pat.length, ?_⟩
        conv_lhs => rw [← List.take_append_drop pat.length a]
        rw [htake]
      rw [hasOcc_false_ipo pat hpne a ha] at hpa
      exact Bool.false_ne_true hpa
    · -- the occurrence would straddle the boundary: impossible without self-overlap
      have hk1 : 0 < a.length := List.length_pos.mpr hane
      have hk2 : a.length < pat.length := Nat.lt_of_not_le hlen
      have hdrop := congrArg (List.drop a.length) ht
      rw [List.drop_left, List.drop_append_eq_append_drop,
        Nat.sub_eq_zero_of_le (Nat.le_of_lt hk2), List.drop_zero] at hdrop
      have hL : (pat ++ b).take (pat.length - a.length) =
          pat.take (pat.length - a.length) := by
        rw [List.take_append_eq_append_take, Nat.sub_eq_zero_of_le (Nat.sub_le _ _),
          List.take_zero, List.append_nil]
      have hR : (pat.drop a.length ++ t).take (pat.length - a.length) =
          pat.drop a.length := by
        rw [← List.length_drop a.length pat]
        exact List.take_left _ _
      have htk := congrArg (List.take (pat.length - a.length)) hdrop
      rw [hL, hR] at htk
      exact hno a.length hk2 hk1 htk.symm

theorem splitSepF_fuel_eq (pat : List Char) (hpne : pat ≠ []) :
    ∀ (f₁ f₂ : Nat) (l : List Char), l.length ≤ f₁ → l.length ≤ f₂ →
      splitSepF pat f₁ l = splitSepF pat f₂ l := by
  intro f₁
  induction f₁ with
  | zero =>
    intro f₂ l h1 _
    have hl : l = [] := List.eq_nil_of_length_eq_zero (Nat.le_zero.mp h1)
    subst hl
    cases f₂ <;> rfl
  | succ f ih =>
    intro f₂ l h1 h2
    cases l with
    | nil => cases f₂ <;> rfl
    | cons c cs =>
      cases f₂ with
      | zero => simp at h2
      | succ f₂' =>
        have hplen : 0 < pat.length := List.length_pos.mpr hpne
        have hcl : cs.length + 1 ≤ f + 1 := by simpa using h1
        have hcl2 : cs.length + 1 ≤ f₂' + 1 := by simpa using h2
        simp only [splitSepF]
        by_cases hp : pat.isPrefixOf (c :: cs) = true
        · rw [if_pos hp, if_pos hp]
          have hd1 : (List.drop pat.length (c :: cs)).length ≤ f := by
            rw [List.length_drop]
            simp only [List.length_cons]
            omega
          have hd2 : (List.drop pat.length (c :: cs)).length ≤ f₂' := by
            rw [List.length_drop]
            simp only [List.length_cons]
            omega
          rw [ih f₂' _ hd1 hd2]
        · rw [if_neg hp, if_neg hp]
          rw [ih f₂' cs (by omega) (by omega)]

theorem splitSepF_no_occ (pat : List Char) :
    ∀ (fuel : Nat) (l : List Char), l.length ≤ fuel → hasOcc pat l = false →
      splitSepF pat fuel l = [l] := by
  intro fuel
  induction fuel with
  | zero =>
    intro l h1 _
    have hl : l = [] := List.eq_nil_of_length_eq_zero (Nat.le_zero.mp h1)
    subst hl
    rfl
  | succ f ih =>
    intro l h1 h2
    cases l with
    | nil => rfl
    | cons c cs =>
      have hp : pat.isPrefixOf (c :: cs) = false := by
        simp only [hasOcc, Bool.or_eq_false_iff] at h2
        exact h2.1
      simp only [splitSepF]
      rw [if_neg (by simp [hp])]
      rw [ih cs (by simpa using Nat.le_of_succ_le_succ (by simpa using h1))
        (hasOcc_false_tail pat c cs h2)]

theorem pySplit_no_occ (pat l : List Char) (h : hasOcc pat l = false) :
    pySplit pat l = [l] :=
  splitSepF_no_occ pat l.length l (Nat.le_refl _) h

theorem splitSepF_append (pat : List Char) (hpne : pat ≠ [])
    (hno : noSelfOverlap pat) (b : List Char) :
    ∀ (a : List Char) (fuel : Nat), (a ++ pat ++ b).length ≤ fuel →
      hasOcc pat a = false →
      splitSepF pat fuel (a ++ pat ++ b) = a :: pySplit pat b := by
  intro a
  induction a with
  | nil =>
    intro fuel hf _
    obtain ⟨p, ps, rfl⟩ : ∃ p ps, pat = p :: ps := by
      cases pat with
      | nil => exact absurd rfl hpne
      | cons p ps => exact ⟨p, ps, rfl⟩
    simp only [List.nil_append] at hf ⊢
    cases fuel with
    | zero => simp at hf
    | succ f =>
      show splitSepF (p :: ps) (f + 1) (p :: (ps ++ b)) = [] :: pySplit (p :: ps) b
      simp only [splitSepF]
      rw [if_pos (show (p :: ps).isPrefixOf (p :: (ps ++ b)) = true from
        ipo_append_self (p :: ps) b)]
      have hd : List.drop (p :: ps).length (p :: (ps ++ b)) = b := by
        simp only [List.length_cons, List.drop_succ_cons]
        exact List.drop_left ps b
      rw [hd]
      have hbf : b.length ≤ f := by
        simp only [List.length_append, List.length_cons] at hf
        omega
      rw [splitSepF_fuel_eq (p :: ps) (by simp) f b.length b hbf (Nat.le_refl _)]
      rfl
  | cons c cs ih =>
    intro fuel hf ha
    have hp := ipo_boundary_false pat hpne hno (c :: cs) b (by simp) ha
    cases fuel with
    | zero => simp at hf
    | succ f =>
      have hshape : (c :: cs) ++ pat ++ b = c :: (cs ++ pat ++ b) := by simp
      rw [hshape]
      rw [hshape] at hp
      simp only [splitSepF]
      rw [if_neg (by simp only [hp]; exact Bool.false_ne_true)]
      have hlen : (cs ++ pat ++ b).length ≤ f := by
        simp only [List.length_append, List.length_cons] at hf ⊢
        omega
      rw [ih f hlen (hasOcc_false_tail pat c cs ha)]

theorem pySplit_append (pat : List Char) (hpne : pat ≠ [])
    (hno : noSelfOverlap pat) (a b : List Char) (ha : hasOcc pat a = false) :
    pySplit pat (a ++ pat ++ b) = a :: pySplit pat b :=
  splitSepF_append pat hpne hno b a (a ++ pat ++ b).length (Nat.le_refl _) ha

theorem replaceAllF_fuel_eq (pat : List Char) (hpne : pat ≠ []) :
    ∀ (f₁ f₂ : Nat) (l : List Char), l.length ≤ f₁ → l.length ≤ f₂ →
      replaceAllF pat f₁ l = replaceAllF pat f₂ l := by
  intro f₁
  induction f₁ with
  | zero =>
    intro f₂ l h1 _
    have hl : l = [] := List.eq_nil_of_length_eq_zero (Nat.le_zero.mp h1)
    subst hl
    cases f₂ <;> rfl
  | succ f ih =>
    intro f₂ l h1 h2
    cases l with
    | nil => cases f₂ <;> rfl
    | cons c cs =>
      cases f₂ with
      | zero => simp at h2
      | succ f₂' =>
        have hplen : 0 < pat.length := List.length_pos.mpr hpne
        have hcl : cs.length + 1 ≤ f + 1 := by simpa using h1
        have hcl2 : cs.length + 1 ≤ f₂' + 1 := by simpa using h2
        simp only [replaceAllF]
        by_cases hp : pat.isPrefixOf (c :: cs) = true
        · rw [if_pos hp, if_pos hp]
          have hd1 : (List.drop pat.length (c :: cs)).length ≤ f := by
            rw [List.length_drop]
            simp only [List.length_cons]
            omega
          have hd2 : (List.drop pat.length (c :: cs)).length ≤ f₂' := by
            rw [List.length_drop]
            simp only [List.length_cons]
            omega
          rw [ih f₂' _ hd1 hd2]
        · rw [if_neg hp, if_neg hp]
          rw [ih f₂' cs (by omega) (by omega)]

theorem replaceAllF_no_occ (pat : List Char) :
    ∀ (fuel : Nat) (l : List Char), l.length ≤ fuel → hasOcc pat l = false →
      replaceAllF pat fuel l = l := by
  intro fuel
  induction fuel with
  | zero =>
    intro l h1 _
    have hl : l = [] := List.eq_nil_of_length_eq_zero (Nat.le_zero.mp h1)
    subst hl
    rfl
  | succ f ih =>
    intro l h1 h2
    cases l with
    | nil => rfl
    | cons c cs =>
      have hp : pat.isPrefixOf (c :: cs) = false := by
        simp only [hasOcc, Bool.or_eq_false_iff] at h2
        exact h2.1
      simp only [replaceAllF]
      rw [if_neg (by simp [hp])]
      rw [ih cs (by simpa using Nat.le_of_succ_le_succ (by simpa using h1))
        (hasOcc_false_tail pat c cs h2)]

theorem pyReplaceEmpty_no_occ (pat l : List Char) (h : hasOcc pat l = false) :
    pyReplaceEmpty pat l = l :=
  replaceAllF_no_occ pat l.length l (Nat.le_refl _) h

theorem replaceAllF_append (pat : List Char) (hpne : pat ≠ [])
    (hno : noSelfOverlap pat) (b : List Char) :
    ∀ (a : List Char) (fuel : Nat), (a ++ pat ++ b).length ≤ fuel →
      hasOcc pat a = false →
      replaceAllF pat fuel (a ++ pat ++ b) = a ++ pyReplaceEmpty pat b := by
  intro a
  induction a with
  | nil =>
    intro fuel hf _
    obtain ⟨p, ps, rfl⟩ : ∃ p ps, pat = p :: ps := by
      cases pat with
      | nil => exact absurd rfl hpne
      | cons p ps => exact ⟨p, ps, rfl⟩
    simp only [List.nil_append] at hf ⊢
    cases fuel with
    | zero => simp at hf
    | succ f =>
      show replaceAllF (p :: ps) (f + 1) (p :: (ps ++ b)) = pyReplaceEmpty (p :: ps) b
      simp only [replaceAllF]
      rw [if_pos (show (p :: ps).isPrefixOf (p :: (ps ++ b)) = true from
        ipo_append_self (p :: ps) b)]
      have hd : List.drop (p :: ps).length (p :: (ps ++ b)) = b := by
        simp only [List.length_cons, List.drop_succ_cons]
        exact List.drop_left ps b
      rw [hd]
      have hbf : b.length ≤ f := by
        simp only [List.length_append, List.length_cons] at hf
        omega
      exact replaceAllF_fuel_eq (p :: ps) (by simp) f b.length b hbf (Nat.le_refl _)
  | cons c cs ih =>
    intro fuel hf ha
    have hp := ipo_boundary_false pat hpne hno (c :: cs) b (by simp) ha
    cases fuel with
    | zero => simp at hf
    | succ f =>
      have hshape : (c :: cs) ++ pat ++ b = c :: (cs ++ pat ++ b) := by simp
      rw [hshape]
      rw [hshape] at hp
      simp only [replaceAllF]
      rw [if_neg (by simp only [hp]; exact Bool.false_ne_true)]
      have hlen : (cs ++ pat ++ b).length ≤ f := by
        simp only [List.length_append, List.length_cons] at hf ⊢
        omega
      rw [ih f hlen (hasOcc_false_tail pat c cs ha)]
      rfl

theorem pyReplaceEmpty_append (pat : List Char) (hpne : pat ≠ [])
    (hno : noSelfOverlap pat) (a b : List Char) (ha : hasOcc pat a = false) :
    pyReplaceEmpty pat (a ++ pat ++ b) = a ++ pyReplaceEmpty pat b :=
  replaceAllF_append pat hpne hno b a (a ++ pat ++ b).length (Nat.le_refl _) ha


/-! ### Supporting lemmas: association-list lookup -/

theorem lookup_cons_ne (k key : String) (w : JVal) (rest : List (String × JVal))
    (h : k ≠ key) : List.lookup k ((key, w) :: rest) = List.lookup k rest := by
  have hb : (k == key) = false := by simpa using h
  simp [List.lookup, hb]

theorem lookup_cons_self (k : String) (w : JVal) (rest : List (String × JVal)) :
    List.lookup k ((k, w) :: rest) = some w := by
  simp [List.lookup]

theorem lookup_isSome_of_mem (k : String) (v : JVal) :
    ∀ l : List (String × JVal), (k, v) ∈ l → (List.lookup k l).isSome = true := by
  intro l
  induction l with
  | nil => intro h; simp at h
  | cons kv rest ih =>
    intro h
    obtain ⟨key, w⟩ := kv
    by_cases hk : k = key
    · subst hk
      rw [lookup_cons_self]
      rfl
    · rw [lookup_cons_ne k key w rest hk]
      rcases List.mem_cons.mp h with h1 | h2
      · exact absurd (congrArg Prod.fst h1) hk
      · exact ih h2

theorem contains_mem (s : String) (l : List String) (h : l.contains s = true) :
    s ∈ l := by
  simpa using h

theorem setTargetField_cons_target (w : JVal) (rest : List (String × JVal)) :
    setTargetField ((preprocessorTargetKey, w) :: rest) =
      (preprocessorTargetKey, JVal.jstr preprocessorCorrectValue) :: setTargetField rest := by
  simp [setTargetField]

theorem setTargetField_cons_other (key : String) (w : JVal)
    (rest : List (String × JVal)) (h : key ≠ preprocessorTargetKey) :
    setTargetField ((key, w) :: rest) = (key, w) :: setTargetField rest := by
  simp [setTargetField, h]

theorem lookup_setTargetField_self :
    ∀ (data : List (String × JVal)) (v : JVal),
      List.lookup preprocessorTargetKey data = some v →
      List.lookup preprocessorTargetKey (setTargetField data) =
        some (JVal.jstr preprocessorCorrectValue) := by
  intro data
  induction data with
  | nil => intro v h; simp [List.lookup] at h
  | cons kv rest ih =>
    intro v h
    obtain ⟨key, w⟩ := kv
    by_cases hk : key = preprocessorTargetKey
    · subst hk
      rw [setTargetField_cons_target, lookup_cons_self]
    · rw [setTargetField_cons_other key w rest hk]
      rw [lookup_cons_ne _ key w _ (Ne.symm hk)] at h ⊢
      exact ih v h

theorem lookup_setTargetField_other (k : String) (hk : k ≠ preprocessorTargetKey) :
    ∀ data : List (String × JVal),
      List.lookup k (setTargetField data) = List.lookup k data := by
  intro data
  induction data with
  | nil => rfl
  | cons kv rest ih =>
    obtain ⟨key, w⟩ := kv
    by_cases hkey : key = preprocessorTargetKey
    · subst hkey
      rw [setTargetField_cons_target, lookup_cons_ne _ _ _ _ hk,
        lookup_cons_ne _ _ _ _ hk]
      exact ih
    · rw [setTargetField_cons_other key w rest hkey]
      by_cases hkk : k = key
      · subst hkk
        rw [lookup_cons_self, lookup_cons_self]
      · rw [lookup_cons_ne _ _ _ _ hkk, lookup_cons_ne _ _ _ _ hkk]
        exact ih

/-! ### C2: adapter-configuration patching is idempotent and
tolerates absent denylisted fields -/

/-- C2.  Adapter-configuration patching (removal of the fixed denylist from
the parsed `adapter_config.json` object, which is then rewritten with the
deterministic `json.dump(config, file, indent=2)`) is idempotent — patching
an already-patched object returns it unchanged, hence re-dumping produces
byte-identical file content — and denylisted fields that are absent are
tolerated: if no entry carries a denylisted key, the patch is the identity. -/
theorem adapter_patch_idempotent :
    (∀ config : List (String × JVal),
      patch_adapter_config (patch_adapter_config config) = patch_adapter_config config) ∧
    (∀ config : List (String × JVal),
      (∀ k ∈ adapterDenylist, List.lookup k config = none) →
      patch_adapter_config config = config) := by
  constructor
  · intro config
    simp [patch_adapter_config, List.filter_filter]
  · intro config h
    rw [patch_adapter_config, List.filter_eq_self]
    intro kv hmem
    cases hc : adapterDenylist.contains kv.1 with
    | false => rfl
    | true =>
      exfalso
      have hmem2 : kv.1 ∈ adapterDenylist := contains_mem kv.1 adapterDenylist hc
      have hnone := h kv.1 hmem2
      have hsome := lookup_isSome_of_mem kv.1 kv.2 config (by simpa using hmem)
      rw [hnone] at hsome
      simp at hsome

/-- C2 witness: a concrete adapter config containing a denylisted field. -/
theorem adapter_patch_idempotent_witness :
    patch_adapter_config (patch_adapter_config
      [("r", JVal.jnum 16), ("lora_bias", JVal.jbool false)]) =
      patch_adapter_config [("r", JVal.jnum 16), ("lora_bias", JVal.jbool false)] ∧
    patch_adapter_config [("r", JVal.jnum 16), ("lora_alpha", JVal.jnum 32)] =
      [("r", JVal.jnum 16), ("lora_alpha", JVal.jnum 32)] := by
  constructor
  · exact adapter_patch_idempotent.1 _
  · exact adapter_patch_idempotent.2 _ (by intro k hk; fin_cases hk <;> rfl)

/-! ### C3: preprocessor-config patching -/

/-- C3.  `_patch_preprocessor_config` on the parsed
`preprocessor_config.json` object: when `image_processor_type` is present
with a wrong value, exactly that field is set to `Qwen2VLImageProcessor` and
every other field is unchanged; when present and correct, the file is left
untouched; when absent, the patch raises `ValueError` instead of guessing. -/
theorem preprocessor_patch_exact :
    (∀ (data : List (String × JVal)) (v : JVal),
      List.lookup preprocessorTargetKey data = some v →
      eqStrVal v preprocessorCorrectValue = false →
      patchPreprocessorObj data = Except.ok (some (setTargetField data)) ∧
      List.lookup preprocessorTargetKey (setTargetField data) =
        some (JVal.jstr preprocessorCorrectValue) ∧
      (∀ k, k ≠ preprocessorTargetKey →
        List.lookup k (setTargetField data) = List.lookup k data)) ∧
    (∀ data : List (String × JVal),
      List.lookup preprocessorTargetKey data =
        some (JVal.jstr preprocessorCorrectValue) →
      patchPreprocessorObj data = Except.ok none) ∧
    (∀ data : List (String × JVal),
      List.lookup preprocessorTargetKey data = none →
      ∃ msg, patchPreprocessorObj data = Except.error (PyErr.valueError msg)) := by
  refine ⟨?_, ?_, ?_⟩
  · intro data v hv hwrong
    refine ⟨?_, lookup_setTargetField_self data v hv,
      fun k hk => lookup_setTargetField_other k hk data⟩
    simp [patchPreprocessorObj, hv, hwrong]
  · intro data hv
    simp [patchPreprocessorObj, hv, eqStrVal]
  · intro data hnone
    refine ⟨"image_processor_type not found in preprocessor_config.json", ?_⟩
    simp [patchPreprocessorObj, hnone]

/-- C3 witness: concrete configs exercising all three branches. -/
theorem preprocessor_patch_exact_witness :
    (patchPreprocessorObj
        [("size", JVal.jnum 28), ("image_processor_type", JVal.jstr "Wrong")] =
      Except.ok (some [("size", JVal.jnum 28),
        ("image_processor_type", JVal.jstr "Qwen2VLImageProcessor")]) ∧
      List.lookup "size"
        (setTargetField
          [("size", JVal.jnum 28), ("image_processor_type", JVal.jstr "Wrong")]) =
        some (JVal.jnum 28)) ∧
    patchPreprocessorObj
        [("image_processor_type", JVal.jstr "Qwen2VLImageProcessor")] =
      Except.ok none ∧
    (∃ msg, patchPreprocessorObj [("size", JVal.jnum 28)] =
      Except.error (PyErr.valueError msg)) := by
  refine ⟨⟨?_, ?_⟩, ?_, ?_⟩
  · exact (preprocessor_patch_exact.1
      [("size", JVal.jnum 28), ("image_processor_type", JVal.jstr "Wrong")]
      (JVal.jstr "Wrong") rfl rfl).1
  · have h := (preprocessor_patch_exact.1
      [("size", JVal.jnum 28), ("image_processor_type", JVal.jstr "Wrong")]
      (JVal.jstr "Wrong") rfl rfl).2.2 "size" (by decide)
    exact h.trans (by rfl)
  · exact preprocessor_patch_exact.2.1
      [("image_processor_type", JVal.jstr "Qwen2VLImageProcessor")] rfl
  · exact preprocessor_patch_exact.2.2 [("size", JVal.jnum 28)] rfl

/-! ### C4 (corrected): dtype resolution precedence -/

/-- C4 counterexample.  The claim states that a revision string that does
not name a recognized precision identifier leaves the caller-supplied dtype
unchanged.  The code performs an unchecked `getattr(torch, revision)` over
the whole torch module: for revision `"nn"` — an attribute of torch that is
no precision identifier — `self.dtype` is overwritten with the submodule
`torch.nn`, not left at the caller-supplied `float16`. -/
theorem dtype_revision_counterexample :
    resolveDtype torchNSfrag TorchDtype.float32 (some TorchDtype.float16)
      (some "nn") = TorchVal.attr "nn" ∧
    TorchVal.attr "nn" ≠ TorchVal.dtype TorchDtype.float16 := by
  exact ⟨rfl, by decide⟩

/-- C4 amended.  Dtype resolution precedence during adapter initialization:
a revision naming any attribute of the torch module — in particular every
recognized precision identifier — overrides the caller-supplied dtype with
that attribute, even when the attribute is not a dtype (the caller-supplied
dtype itself overrides the class default); only a revision naming no torch
attribute at all, where `getattr` raises the swallowed `AttributeError`,
leaves the caller-supplied (or default) dtype unchanged, and no error
escapes in any case (`resolveDtype` is total). -/
theorem dtype_resolution_amended :
    (∀ (ns : String → Option TorchVal) (cd : TorchDtype) (c : Option TorchDtype)
        (r : String) (v : TorchVal),
      ns r = some v → resolveDtype ns cd c (some r) = v) ∧
    (∀ (ns : String → Option TorchVal) (cd : TorchDtype) (c : Option TorchDtype)
        (r : String),
      ns r = none → resolveDtype ns cd c (some r) = TorchVal.dtype (c.getD cd)) ∧
    (∀ (ns : String → Option TorchVal) (cd c : TorchDtype),
      resolveDtype ns cd (some c) none = TorchVal.dtype c) ∧
    (∀ (ns : String → Option TorchVal) (cd : TorchDtype),
      resolveDtype ns cd none none = TorchVal.dtype cd) := by
  refine ⟨?_, ?_, fun _ _ _ => rfl, fun _ _ => rfl⟩
  · intro ns cd c r v h
    rw [resolveDtype, h]
  · intro ns cd c r h
    rw [resolveDtype, h]

/-- C4 amended, witness: against the torch-namespace fragment, revision
`"bfloat16"` overrides a caller-supplied `float16`; revision `"uint8"` (a
dtype attribute outside the common precision aliases) also overrides;
revision `"main"` names no torch attribute and keeps the caller dtype; and
with no revision the caller dtype stands over the class default. -/
theorem dtype_resolution_amended_witness :
    resolveDtype torchNSfrag TorchDtype.float32 (some TorchDtype.float16)
      (some "bfloat16") = TorchVal.dtype TorchDtype.bfloat16 ∧
    resolveDtype torchNSfrag TorchDtype.float32 (some TorchDtype.float16)
      (some "uint8") = TorchVal.dtype (TorchDtype.named "uint8") ∧
    resolveDtype torchNSfrag TorchDtype.float32 (some TorchDtype.float16)
      (some "main") = TorchVal.dtype TorchDtype.float16 ∧
    resolveDtype torchNSfrag TorchDtype.float32 (some TorchDtype.float16) none =
      TorchVal.dtype TorchDtype.float16 := by
  refine ⟨?_, ?_, ?_, ?_⟩
  · exact dtype_resolution_amended.1 torchNSfrag TorchDtype.float32
      (some TorchDtype.float16) "bfloat16" (TorchVal.dtype TorchDtype.bfloat16) rfl
  · exact dtype_resolution_amended.1 torchNSfrag TorchDtype.float32
      (some TorchDtype.float16) "uint8"
      (TorchVal.dtype (TorchDtype.named "uint8")) rfl
  · exact dtype_resolution_amended.2.1 torchNSfrag TorchDtype.float32
      (some TorchDtype.float16) "main" rfl
  · exact dtype_resolution_amended.2.2.1 torchNSfrag TorchDtype.float32
      TorchDtype.float16

/-! ### C8: per-family generation slicing -/

/-- C8.  Both `Qwen25VL` and `LoRAQwen25VL` set
`generation_includes_input = True`, yet the slicing is asymmetric exactly as
in the source: `Qwen25VL.predict` guards the slice with
`if not self.generation_includes_input`, so it never drops the input prefix,
while `LoRAQwen25VL.predict` guards it with
`if self.generation_includes_input`, so it always drops the first
`input_len` tokens of every generated row. -/
theorem generation_slicing_asymmetry :
    qwen25vl_generation_includes_input = true ∧
    lora_qwen25vl_generation_includes_input = true ∧
    (∀ (n : Nat) (g : List (List Nat)), qwen25vl_slice_generation n g = g) ∧
    (∀ (n : Nat) (g : List (List Nat)),
      lora_qwen25vl_slice_generation n g = g.map (List.drop n)) :=
  ⟨rfl, rfl, fun _ _ => rfl, fun _ _ => rfl⟩

/-! ### C9: missing token is fatal before any download -/

/-- C9.  With `needs_hf_token` set and both the `huggingface_token` argument
and the `HUGGINGFACE_TOKEN` environment default absent (`None`),
`TransformerModel.__init__` and `Qwen25VL.__init__` raise `RuntimeError`
before `cache_model_artefacts()` is ever called (the empty event trace), so
no download is attempted; nothing in the source catches or retries this
error. -/
theorem missing_token_fatal :
    transformer_init true none = ([], some (PyErr.runtimeError missingTokenMsg)) ∧
    qwen25vl_init true none none = ([], some (PyErr.runtimeError missingTokenMsg)) ∧
    InitEvent.cache_model_artefacts ∉ (transformer_init true none).1 ∧
    InitEvent.cache_model_artefacts ∉ (qwen25vl_init true none none).1 := by
  refine ⟨rfl, rfl, ?_, ?_⟩ <;> simp [transformer_init, qwen25vl_init]

/-! ### C10: prompt=None totality asymmetry -/

/-- C10.  `Qwen25VL.predict` splits the prompt without a `None` guard, so
calling it with the declared default `prompt=None` raises `AttributeError`;
`LoRAQwen25VL.predict` guards `None` and substitutes the empty user prompt
with the default system prompt — the two families are not total on the same
inputs. -/
theorem predict_none_prompt_asymmetry :
    qwen25vl_prompt_step none = Except.error PyErr.attributeError ∧
    lora_qwen25vl_prompt_step none =
      Except.ok ([], qwen_default_system_prompt.toList) :=
  ⟨rfl, rfl⟩



/-! ### Facts about the concrete literals -/

theorem system_prompt_delimiter_ne_nil : system_prompt_delimiter ≠ [] := by decide

theorem system_prompt_delimiter_no_overlap : noSelfOverlap system_prompt_delimiter := by
  unfold noSelfOverlap
  decide

theorem assistantArtifact_ne_nil : assistantArtifact ≠ [] := by decide

theorem assistantArtifact_no_overlap : noSelfOverlap assistantArtifact := by
  unfold noSelfOverlap
  decide

theorem addCriterionArtifact_ne_nil : addCriterionArtifact ≠ [] := by decide

theorem addCriterionArtifact_no_overlap : noSelfOverlap addCriterionArtifact := by
  unfold noSelfOverlap
  decide

/-! ### C5 (corrected): prompt splitting on the delimiter -/

/-- C5 counterexample.  The claim states that for every prompt containing the
delimiter, the text after the first delimiter becomes the system prompt.  For
a prompt containing the delimiter twice, the code takes `split_prompt[1]` —
only the text between the first and second delimiter — so the system prompt
is `"b"` and not the text after the first delimiter,
`"b<system_prompt>c"`. -/
theorem prompt_split_counterexample :
    qwen25vl_prompt_step (some ("a<system_prompt>b<system_prompt>c".toList)) =
      Except.ok ("a".toList, "b".toList) ∧
    lora_qwen25vl_prompt_step (some ("a<system_prompt>b<system_prompt>c".toList)) =
      Except.ok ("a".toList, "b".toList) ∧
    "b".toList ≠ "b<system_prompt>c".toList := by
  exact ⟨rfl, rfl, by decide⟩

/-- C5 amended.  Prompt splitting in `predict` (both `Qwen25VL` and
`LoRAQwen25VL`): a prompt without the delimiter is the whole user prompt and
the fixed default system prompt is used; for a prompt of the form
`user ++ delimiter ++ sys` with delimiter-free `user` and `sys`, `user` is
the user prompt and `sys` the system prompt; with a second delimiter, only
the text between the first and second delimiter becomes the system prompt
(text after the second delimiter is dropped). -/
theorem prompt_split_amended :
    (∀ p : List Char, hasOcc system_prompt_delimiter p = false →
      qwen25vl_prompt_step (some p) =
        Except.ok (p, qwen_default_system_prompt.toList) ∧
      lora_qwen25vl_prompt_step (some p) =
        Except.ok (p, qwen_default_system_prompt.toList)) ∧
    (∀ a b : List Char, hasOcc system_prompt_delimiter a = false →
      hasOcc system_prompt_delimiter b = false →
      qwen25vl_prompt_step (some (a ++ system_prompt_delimiter ++ b)) =
        Except.ok (a, b) ∧
      lora_qwen25vl_prompt_step (some (a ++ system_prompt_delimiter ++ b)) =
        Except.ok (a, b)) ∧
    (∀ a b c : List Char, hasOcc system_prompt_delimiter a = false →
      hasOcc system_prompt_delimiter b = false →
      qwen25vl_prompt_step (some (a ++ system_prompt_delimiter ++ b ++
          system_prompt_delimiter ++ c)) = Except.ok (a, b) ∧
      lora_qwen25vl_prompt_step (some (a ++ system_prompt_delimiter ++ b ++
          system_prompt_delimiter ++ c)) = Except.ok (a, b)) := by
  have hone : ∀ p : List Char, hasOcc system_prompt_delimiter p = false →
      splitPromptQwen p = some (p, qwen_default_system_prompt.toList) := by
    intro p hp
    rw [splitPromptQwen]
    rw [pySplit_no_occ _ _ hp]
    rfl
  have htwo : ∀ a b : List Char, hasOcc system_prompt_delimiter a = false →
      hasOcc system_prompt_delimiter b = false →
      splitPromptQwen (a ++ system_prompt_delimiter ++ b) = some (a, b) := by
    intro a b ha hb
    rw [splitPromptQwen]
    rw [pySplit_append _ system_prompt_delimiter_ne_nil
      system_prompt_delimiter_no_overlap _ _ ha]
    rw [pySplit_no_occ _ _ hb]
    rfl
  have hthree : ∀ a b c : List Char, hasOcc system_prompt_delimiter a = false →
      hasOcc system_prompt_delimiter b = false →
      splitPromptQwen (a ++ system_prompt_delimiter ++ b ++
        system_prompt_delimiter ++ c) = some (a, b) := by
    intro a b c ha hb
    rw [splitPromptQwen]
    have hshape : a ++ system_prompt_delimiter ++ b ++ system_prompt_delimiter ++ c =
        a ++ system_prompt_delimiter ++ (b ++ system_prompt_delimiter ++ c) := by
      simp [List.append_assoc]
    rw [hshape]
    rw [pySplit_append _ system_prompt_delimiter_ne_nil
      system_prompt_delimiter_no_overlap _ _ ha]
    rw [pySplit_append _ system_prompt_delimiter_ne_nil
      system_prompt_delimiter_no_overlap _ _ hb]
    rw [if_neg (by simp)]
    simp
  refine ⟨?_, ?_, ?_⟩
  · intro p hp
    constructor
    · simp only [qwen25vl_prompt_step]
      rw [hone p hp]
    · simp only [lora_qwen25vl_prompt_step]
      rw [hone p hp]
  · intro a b ha hb
    constructor
    · simp only [qwen25vl_prompt_step]
      rw [htwo a b ha hb]
    · simp only [lora_qwen25vl_prompt_step]
      rw [htwo a b ha hb]
  · intro a b c ha hb
    constructor
    · simp only [qwen25vl_prompt_step]
      rw [hthree a b c ha hb]
    · simp only [lora_qwen25vl_prompt_step]
      rw [hthree a b c ha hb]

/-- C5 amended, witness: scenario B of the spec,
`"Describe this.<system_prompt>You are terse."` splits into user prompt
`"Describe this."` and system prompt `"You are terse."`, and a plain prompt
keeps the default system prompt. -/
theorem prompt_split_amended_witness :
    hasOcc system_prompt_delimiter "Describe this.".toList = false ∧
    hasOcc system_prompt_delimiter "You are terse.".toList = false ∧
    qwen25vl_prompt_step (some ("Describe this.".toList ++
        system_prompt_delimiter ++ "You are terse.".toList)) =
      Except.ok ("Describe this.".toList, "You are terse.".toList) ∧
    qwen25vl_prompt_step (some "What is shown?".toList) =
      Except.ok ("What is shown?".toList, qwen_default_system_prompt.toList) := by
  refine ⟨by decide, by decide, ?_, ?_⟩
  · exact (prompt_split_amended.2.1 "Describe this.".toList "You are terse.".toList
      (by decide) (by decide)).1
  · exact (prompt_split_amended.1 "What is shown?".toList (by decide)).1

/-! ### C6 (corrected): output sanitization -/

/-- C6 counterexample.  The claim states that a decoded output containing
`"assistant\n"` has that substring absent from the final returned text.  The
single-pass `str.replace` deletes the occurrences present in the decoded
string, but the deletion can splice the surrounding text into a new
occurrence, which is not removed: for decoded output
`"assisassistant\ntant\n"` (which contains `"assistant\n"`), the returned
text is exactly `"assistant\n"`, which still contains the substring. -/
theorem sanitize_counterexample :
    hasOcc assistantArtifact "assisassistant\ntant\n".toList = true ∧
    sanitizeDecoded "assisassistant\ntant\n".toList = "assistant\n".toList ∧
    hasOcc assistantArtifact
      (sanitizeDecoded "assisassistant\ntant\n".toList) = true := by
  exact ⟨by decide, rfl, by decide⟩

/-- C6 amended.  Output post-processing removes, in one deterministic
left-to-right pass per pattern, the occurrences of `"assistant\n"` and then
of `" addCriterion\n"` that are present while scanning; occurrences formed by
splicing the text around a removed occurrence are not removed.  A decoded
string free of both artifacts is returned unchanged; a decoded string with a
single well-separated occurrence of either artifact is returned with exactly
that occurrence deleted. -/
theorem sanitize_amended :
    (∀ s : List Char, hasOcc assistantArtifact s = false →
      hasOcc addCriterionArtifact s = false → sanitizeDecoded s = s) ∧
    (∀ a b : List Char, hasOcc assistantArtifact a = false →
      hasOcc assistantArtifact b = false →
      hasOcc addCriterionArtifact (a ++ b) = false →
      sanitizeDecoded (a ++ assistantArtifact ++ b) = a ++ b) ∧
    (∀ a b : List Char,
      hasOcc assistantArtifact (a ++ addCriterionArtifact ++ b) = false →
      hasOcc addCriterionArtifact a = false →
      hasOcc addCriterionArtifact b = false →
      sanitizeDecoded (a ++ addCriterionArtifact ++ b) = a ++ b) := by
  refine ⟨?_, ?_, ?_⟩
  · intro s h1 h2
    rw [sanitizeDecoded, pyReplaceEmpty_no_occ _ _ h1, pyReplaceEmpty_no_occ _ _ h2]
  · intro a b ha hb hab
    rw [sanitizeDecoded]
    rw [pyReplaceEmpty_append _ assistantArtifact_ne_nil
      assistantArtifact_no_overlap _ _ ha]
    rw [pyReplaceEmpty_no_occ _ _ hb]
    rw [pyReplaceEmpty_no_occ _ _ hab]
  · intro a b hall ha hb
    rw [sanitizeDecoded]
    rw [pyReplaceEmpty_no_occ _ _ hall]
    rw [pyReplaceEmpty_append _ addCriterionArtifact_ne_nil
      addCriterionArtifact_no_overlap _ _ ha]
    rw [pyReplaceEmpty_no_occ _ _ hb]

/-- C6 amended, witness: scenario D of the spec on a well-separated decoded
output — the `"assistant\n"` echo is removed — and an `" addCriterion\n"`
echo is removed likewise. -/
theorem sanitize_amended_witness :
    sanitizeDecoded ("A cat.".toList ++ assistantArtifact ++ " Done.".toList) =
      "A cat.".toList ++ " Done.".toList ∧
    sanitizeDecoded ("A cat.".toList ++ addCriterionArtifact ++ "Done.".toList) =
      "A cat.".toList ++ "Done.".toList ∧
    sanitizeDecoded "A plain answer.".toList = "A plain answer.".toList := by
  refine ⟨?_, ?_, ?_⟩
  · exact sanitize_amended.2.1 "A cat.".toList " Done.".toList
      (by decide) (by decide) (by decide)
  · exact sanitize_amended.2.2 "A cat.".toList "Done.".toList
      (by decide) (by decide) (by decide)
  · exact sanitize_amended.1 "A plain answer.".toList (by decide) (by decide)



/-! ### C1: missing weights key is a fatal artifact error, nothing cached -/

/-- C1.  For each of the three manifest shapes — core model
(`load_weights_as_transformers`), versioned model (`version_id` set), instant
model (otherwise) — a response missing the expected weights key
(`weights`, `ort.weights`, or `modelFiles` / `modelFiles.transformers`)
makes `download_model_artifacts_from_roboflow_api` fail with
`ModelArtefactError`, and the download loop is never entered, so no file is
written to the cache directory (`emptyDlState`). -/
theorem download_missing_weights_key_artefact_error :
    (∀ (env : RoboflowEnv) (cfg : TransformerCfg),
      cfg.load_weights_as_transformers = true →
      List.lookup "weights" (env.apiResponse 0) = none →
      download_model_artifacts_from_roboflow_api env cfg =
        (emptyDlState, some (PyErr.modelArtefactError missingWeightsMsg))) ∧
    (∀ (env : RoboflowEnv) (cfg : TransformerCfg) (ort : List (String × JVal)),
      cfg.load_weights_as_transformers = false →
      cfg.version_id.isSome = true →
      List.lookup "ort" (env.apiResponse 0) = some (JVal.jobj ort) →
      List.lookup "weights" ort = none →
      download_model_artifacts_from_roboflow_api env cfg =
        (emptyDlState, some (PyErr.modelArtefactError missingWeightsMsg))) ∧
    (∀ (env : RoboflowEnv) (cfg : TransformerCfg),
      cfg.load_weights_as_transformers = false →
      cfg.version_id = none →
      List.lookup "modelFiles" (env.apiResponse 0) = none →
      download_model_artifacts_from_roboflow_api env cfg =
        (emptyDlState, some (PyErr.modelArtefactError missingModelFilesMsg))) ∧
    (∀ (env : RoboflowEnv) (cfg : TransformerCfg) (mf : List (String × JVal)),
      cfg.load_weights_as_transformers = false →
      cfg.version_id = none →
      List.lookup "modelFiles" (env.apiResponse 0) = some (JVal.jobj mf) →
      List.lookup "transformers" mf = none →
      download_model_artifacts_from_roboflow_api env cfg =
        (emptyDlState, some (PyErr.modelArtefactError missingTransformersMsg))) := by
  refine ⟨?_, ?_, ?_, ?_⟩
  · intro env cfg h1 h2
    rw [download_model_artifacts_from_roboflow_api]
    rw [show resolveWeights cfg (env.apiResponse 0) =
        Except.error (PyErr.modelArtefactError missingWeightsMsg) from by
      simp [resolveWeights, h1, h2]]
  · intro env cfg ort h1 h2 h3 h4
    rw [download_model_artifacts_from_roboflow_api]
    rw [show resolveWeights cfg (env.apiResponse 0) =
        Except.error (PyErr.modelArtefactError missingWeightsMsg) from by
      simp [resolveWeights, h1, h2, h3, h4]]
  · intro env cfg h1 h2 h3
    rw [download_model_artifacts_from_roboflow_api]
    rw [show resolveWeights cfg (env.apiResponse 0) =
        Except.error (PyErr.modelArtefactError missingModelFilesMsg) from by
      simp [resolveWeights, h1, h2, h3]]
  · intro env cfg mf h1 h2 h3 h4
    rw [download_model_artifacts_from_roboflow_api]
    rw [show resolveWeights cfg (env.apiResponse 0) =
        Except.error (PyErr.modelArtefactError missingTransformersMsg) from by
      simp [resolveWeights, h1, h2, h3, h4]]

/-- C1 witness: concrete environments missing the expected key for every
manifest shape. -/
theorem download_missing_weights_key_artefact_error_witness :
    download_model_artifacts_from_roboflow_api
        ⟨fun _ => [("other", JVal.jnull)], fun _ => 0, fun _ => true⟩
        ⟨true, none⟩ =
      (emptyDlState, some (PyErr.modelArtefactError missingWeightsMsg)) ∧
    download_model_artifacts_from_roboflow_api
        ⟨fun _ => [("ort", JVal.jobj [("name", JVal.jstr "m")])], fun _ => 0, fun _ => true⟩
        ⟨false, some "1"⟩ =
      (emptyDlState, some (PyErr.modelArtefactError missingWeightsMsg)) ∧
    download_model_artifacts_from_roboflow_api
        ⟨fun _ => [("other", JVal.jnull)], fun _ => 0, fun _ => true⟩
        ⟨false, none⟩ =
      (emptyDlState, some (PyErr.modelArtefactError missingModelFilesMsg)) ∧
    download_model_artifacts_from_roboflow_api
        ⟨fun _ => [("modelFiles", JVal.jobj [("onnx", JVal.jstr "u")])], fun _ => 0, fun _ => true⟩
        ⟨false, none⟩ =
      (emptyDlState, some (PyErr.modelArtefactError missingTransformersMsg)) := by
  refine ⟨?_, ?_, ?_, ?_⟩
  · exact download_missing_weights_key_artefact_error.1 _ _ rfl rfl
  · exact download_missing_weights_key_artefact_error.2.1 _ _
      [("name", JVal.jstr "m")] rfl rfl rfl rfl
  · exact download_missing_weights_key_artefact_error.2.2.1 _ _ rfl rfl rfl
  · exact download_missing_weights_key_artefact_error.2.2.2 _ _
      [("onnx", JVal.jstr "u")] rfl rfl rfl rfl

/-! ### C7: stale-URL recovery -/

/-- Processing a run of fast files does not refresh the manifest and records
their cache file names in order. -/
theorem downloadLoop_fast (env : RoboflowEnv) (cfg : TransformerCfg)
    (w : List (String × JVal)) :
    ∀ (files rest : List String) (n : Nat) (st : DlState),
      (∀ f ∈ files, fileFast env w f) →
      downloadLoop env cfg (files ++ rest) (JVal.jobj w) n st =
        downloadLoop env cfg rest (JVal.jobj w) n
          ⟨st.refreshes, st.written ++ files.map (fnameFromManifest w)⟩ := by
  intro files
  induction files with
  | nil =>
    intro rest n st _
    simp
  | cons f fs ih =>
    intro rest n st hff
    obtain ⟨u, hu, hdur, hnpz, htar⟩ := hff f (List.mem_cons_self f fs)
    have hname : fnameFromManifest w f = cacheFileName u := by
      rw [fnameFromManifest, hu]
    rw [List.cons_append]
    rw [downloadLoop]
    simp only [hu]
    rw [if_neg (by intro hh; rw [hnpz] at hh; exact Bool.noConfusion hh)]
    rw [if_neg (by
      rintro ⟨hsuf, hbad⟩
      rw [htar hsuf] at hbad
      exact Bool.noConfusion hbad)]
    rw [if_neg (Nat.not_lt.mpr hdur)]
    rw [ih rest n ⟨st.refreshes, st.written ++ [cacheFileName u]⟩
      (fun g hg => hff g (List.mem_cons_of_mem f hg))]
    simp [← hname]

/-- Processing a list of only fast files terminates with no error, no
refresh, and exactly their cache file names written. -/
theorem downloadLoop_all_fast (env : RoboflowEnv) (cfg : TransformerCfg)
    (w : List (String × JVal)) (files : List String) (n : Nat) (st : DlState)
    (hff : ∀ f ∈ files, fileFast env w f) :
    downloadLoop env cfg files (JVal.jobj w) n st =
      (⟨st.refreshes, st.written ++ files.map (fnameFromManifest w)⟩, none) := by
  have h := downloadLoop_fast env cfg w files [] n st hff
  rw [List.append_nil] at h
  rw [h]
  rw [downloadLoop]

/-- C7.  Stale-URL recovery: when exactly one file of the manifest exceeds
the 120-second budget (every earlier file is fast against the initial
manifest `w0`, every later file fast against the refreshed manifest `w1`),
`download_model_artifacts_from_roboflow_api` makes exactly one manifest
re-resolution call (refresh count 1, from endpoint call index 1) before
continuing with the next file, looks every remaining file up in the freshly
resolved `w1` (their written cache names are the ones `w1` assigns), and
surfaces no error to the caller. -/
theorem stale_url_recovery (env : RoboflowEnv) (cfg : TransformerCfg)
    (w0 w1 : List (String × JVal)) (pre post : List String) (slow u : String)
    (h0 : resolveWeights cfg (env.apiResponse 0) = Except.ok (JVal.jobj w0))
    (hkeys : w0.map Prod.fst = pre ++ slow :: post)
    (hpre : ∀ f ∈ pre, fileFast env w0 f)
    (hu : List.lookup slow w0 = some (JVal.jstr u))
    (hslow : 120 < env.duration u)
    (hnpz : (".npz".toList).isSuffixOf (filenameOfUrl u.toList) = false)
    (htar : ("tar.gz".toList).isSuffixOf (filenameOfUrl u.toList) = true →
      env.tarOk (cacheFileName u) = true)
    (hrefresh : refreshWeights env cfg 1 = Except.ok (JVal.jobj w1))
    (hpost : ∀ f ∈ post, fileFast env w1 f) :
    download_model_artifacts_from_roboflow_api env cfg =
      (⟨1, pre.map (fnameFromManifest w0) ++ [fnameFromManifest w0 slow] ++
        post.map (fnameFromManifest w1)⟩, none) := by
  rw [download_model_artifacts_from_roboflow_api]
  simp only [h0]
  rw [hkeys]
  rw [downloadLoop_fast env cfg w0 pre (slow :: post) 1 emptyDlState hpre]
  rw [downloadLoop]
  simp only [hu]
  rw [if_neg (by intro hh; rw [hnpz] at hh; exact Bool.noConfusion hh)]
  rw [if_neg (by
    rintro ⟨hsuf, hbad⟩
    rw [htar hsuf] at hbad
    exact Bool.noConfusion hbad)]
  rw [if_pos hslow]
  simp only [hrefresh]
  rw [downloadLoop_all_fast env cfg w1 post _ _ hpost]
  rw [show fnameFromManifest w0 slow = cacheFileName u from by
    rw [fnameFromManifest, hu]]
  simp [emptyDlState]

/-- C7 witness: two files; the first one is slow under the initial signed
urls, and the second file is fast only under the refreshed url, so the run
finishing with a single refresh and no error shows the remaining file was
fetched from the fresh manifest. -/
theorem stale_url_recovery_witness :
    download_model_artifacts_from_roboflow_api
      ⟨fun k =>
          if k = 0 then
            [("weights", JVal.jobj
              [("a", JVal.jstr "a.bin?t0"), ("b", JVal.jstr "b.bin?t0")])]
          else
            [("weights", JVal.jobj
              [("a", JVal.jstr "a.bin?t1"), ("b", JVal.jstr "b.bin?t1")])],
        fun u => if u = "a.bin?t0" then 130 else if u = "b.bin?t0" then 130 else 5,
        fun _ => true⟩
      ⟨true, none⟩ =
      (⟨1, ["a.bin", "b.bin"]⟩, none) := by
  have h := stale_url_recovery
    ⟨fun k =>
        if k = 0 then
          [("weights", JVal.jobj
            [("a", JVal.jstr "a.bin?t0"), ("b", JVal.jstr "b.bin?t0")])]
        else
          [("weights", JVal.jobj
            [("a", JVal.jstr "a.bin?t1"), ("b", JVal.jstr "b.bin?t1")])],
      fun u => if u = "a.bin?t0" then 130 else if u = "b.bin?t0" then 130 else 5,
      fun _ => true⟩
    ⟨true, none⟩
    [("a", JVal.jstr "a.bin?t0"), ("b", JVal.jstr "b.bin?t0")]
    [("a", JVal.jstr "a.bin?t1"), ("b", JVal.jstr "b.bin?t1")]
    [] ["b"] "a" "a.bin?t0"
    rfl rfl (by intro f hf; simp at hf)
    rfl (by decide) (by decide) (by intro h; decide)
    rfl
    (by
      intro f hf
      have : f = "b" := by simpa using hf
      subst this
      exact ⟨"b.bin?t1", rfl, by decide, by decide, by intro h; decide⟩)
  exact h


end Inference
